import Mathlib

/-!
Verification of the PestDetect IoT orchestrator (`iot_controller/actuator.py`)
against its natural-language specification.

We build a shallow embedding of the actuator module: relay channels,
motor state, the risk policy of `trigger_pest_response`, the action
dispatcher, and configuration loading.  Python floats appear here as
rationals (the source performs only comparisons, assignment and unit
increments on them, so the embedding is exact on the inputs considered);
Python dicts appear as association lists with first-match lookup and
in-place update; a function body wrapped in `try/except` is modelled by a
`PyResult` that distinguishes an exception caught (and logged) inside the
function from one propagated to the caller.
-/

namespace PestDetect

/-- A Python exception value, as far as this module distinguishes them. -/
inductive PyError where
  | valueError (msg : String)
  | nameError (name : String)
deriving DecidableEq, Repr

/-- Outcome of a call as seen from outside the function:
`ok` — returned normally with no error; `caught e` — exception `e` was
raised inside the function, caught by its own handler, logged, and the
function returned normally; `raised e` — exception `e` propagated to the
caller. -/
inductive PyResult where
  | ok
  | caught (e : PyError)
  | raised (e : PyError)
deriving DecidableEq, Repr

/-- Does the call deliver an exception to the caller? -/
def PyResult.isRaised : PyResult → Bool
  | .raised _ => true
  | _ => false

/-! ### Python dict primitives (association-list model)

A Python dict keeps its keys unique and in insertion order; we model the
`relay_states` dict as an association list.  `dictLookup` finds the entry
for a key, `dictGet d k default` is `d.get(k, default)`, and
`dictSet d k v` is `d[k] = v`: update in place when the key is present,
append at the end otherwise. -/

def dictLookup (d : List (Int × Bool)) (k : Int) : Option Bool :=
  match d with
  | [] => none
  | (a, b) :: t => if k = a then some b else dictLookup t k

def dictGet (d : List (Int × Bool)) (k : Int) (default : Bool) : Bool :=
  match dictLookup d k with
  | some v => v
  | none => default

def dictSet (d : List (Int × Bool)) (k : Int) (v : Bool) : List (Int × Bool) :=
  match d with
  | [] => [(k, v)]
  | (a, b) :: t => if k = a then (k, v) :: t else (a, b) :: dictSet t k v

/-! ### RelayController

`RelayController.__init__` builds `relay_states = {pin: False for pin in
relay_pins}`; the `gpio_module` argument defaults to `None`, so every
`if self.gpio:` branch is skipped.  `activate_relay` with a truthy
`duration` starts a `threading.Timer` that will deactivate the pin; we
record those as pending timers. -/

structure RelayState where
  relay_pins : List Int
  relay_states : List (Int × Bool)
  pendingTimers : List (ℚ × Int)
deriving DecidableEq, Repr

def RelayController.init (pins : List Int) : RelayState :=
  { relay_pins := pins
    relay_states := pins.map (fun p => (p, false))
    pendingTimers := [] }

/-- Python truthiness of the optional `duration : float` argument:
`None` and `0` are falsy. -/
def durationTruthy : Option ℚ → Bool
  | none => false
  | some d => d ≠ 0

/-- `RelayController.activate_relay` (actuator.py lines 48-70).  The whole
body is inside `try/except Exception`, so the `ValueError` for an invalid
pin is caught and logged, never propagated. -/
def activate_relay (rc : RelayState) (pin : Int) (duration : Option ℚ) :
    RelayState × PyResult :=
  if pin ∈ rc.relay_pins then
    ({ rc with
        relay_states := dictSet rc.relay_states pin true
        pendingTimers :=
          if durationTruthy duration then
            rc.pendingTimers ++ [((duration.getD 0), pin)]
          else rc.pendingTimers },
     .ok)
  else
    (rc, .caught (.valueError ("Invalid relay pin: " ++ toString pin)))

/-- `RelayController.deactivate_relay` (actuator.py lines 72-89); the same
`try/except Exception` wrapping. -/
def deactivate_relay (rc : RelayState) (pin : Int) : RelayState × PyResult :=
  if pin ∈ rc.relay_pins then
    ({ rc with relay_states := dictSet rc.relay_states pin false }, .ok)
  else
    (rc, .caught (.valueError ("Invalid relay pin: " ++ toString pin)))

/-- `RelayController.get_relay_state` (actuator.py lines 91-93):
`return self.relay_states.get(pin, False)`. -/
def get_relay_state (rc : RelayState) (pin : Int) : Bool :=
  dictGet rc.relay_states pin false

/-! ### MotorController

`current_position` starts at `0` and is shared between the stepper
(relative integer steps) and the servo (absolute angle); `is_moving` is
toggled by `move_stepper`. -/

structure MotorState where
  current_position : ℚ
  is_moving : Bool
deriving DecidableEq, Repr

def MotorController.init : MotorState :=
  { current_position := 0, is_moving := false }

/-- `MotorController.get_position` (actuator.py lines 175-177). -/
def get_position (m : MotorState) : ℚ :=
  m.current_position

/-- `MotorController.move_servo` (actuator.py lines 151-173).  The body is
wrapped in `try/except Exception`: an out-of-range angle raises a
`ValueError` that the function itself catches and logs. -/
def move_servo (m : MotorState) (angle : ℚ) : MotorState × PyResult :=
  if 0 ≤ angle ∧ angle ≤ 180 then
    ({ m with current_position := angle }, .ok)
  else
    (m, .caught (.valueError "Angle must be between 0 and 180 degrees"))

/-- The loop body of `move_stepper`: `for step in range(steps):` performs
`current_position += direction` once per iteration, returning the sequence
of states observed after each iteration together with the state at loop
exit.  (`range(steps)` is empty when `steps ≤ 0`.) -/
def stepperSteps (m : MotorState) (steps : Nat) (direction : Int) :
    List MotorState × MotorState :=
  match steps with
  | 0 => ([], m)
  | n + 1 =>
    let m' := { m with current_position := m.current_position + (direction : ℚ) }
    let r := stepperSteps m' n direction
    (m' :: r.1, r.2)

/-- `MotorController.move_stepper` (actuator.py lines 123-149): sets
`is_moving = True`, runs the step loop (each iteration sleeps `speed`
seconds and increments the position by `direction`), then clears
`is_moving`.  Returns the trace of states while the move is in progress
and the final state. -/
def move_stepper (m : MotorState) (steps : Int) (direction : Int)
    (_speed : ℚ) : List MotorState × MotorState :=
  let m0 := { m with is_moving := true }
  let r := stepperSteps m0 steps.toNat direction
  (m0 :: r.1, { r.2 with is_moving := false })

/-! ### Actions and the risk policy

An action in the source is a dict such as `{'type': 'spray_pesticide',
'duration': 10}`; `_execute_action` reads it with `action.get('type')`,
`action.get('duration', 5)`, `action.get('angle', 90)`.  We model exactly
those three fields, each optional as a dict key is. -/

structure Action where
  type : Option String
  duration : Option ℚ
  angle : Option ℚ
deriving DecidableEq, Repr

def sprayAction (d : ℚ) : Action := ⟨some "spray_pesticide", some d, none⟩

def trapAction (d : ℚ) : Action := ⟨some "activate_trap", some d, none⟩

/-- The pest thresholds of the configuration (`pest_thresholds`). -/
structure PestThresholds where
  high_risk : ℚ
  medium_risk : ℚ
  low_risk : ℚ
deriving DecidableEq, Repr

/-- The `pest_thresholds` entry of `default_config`
(actuator.py lines 300-304). -/
def defaultThresholds : PestThresholds :=
  { high_risk := 8/10, medium_risk := 5/10, low_risk := 3/10 }

/-- The branch structure of `trigger_pest_response` (actuator.py lines
456-473) as the spec's `classify`: confidence against the configured
thresholds, checked high first. -/
inductive RiskTier where
  | low
  | medium
  | high
deriving DecidableEq, Repr

/-- Order of tiers, low < medium < high. -/
def RiskTier.val : RiskTier → Nat
  | .low => 0
  | .medium => 1
  | .high => 2

def classify (th : PestThresholds) (confidence : ℚ) : RiskTier :=
  if confidence ≥ th.high_risk then .high
  else if confidence ≥ th.medium_risk then .medium
  else .low

/-- The spec's `actionsFor`: the canonical action bundle per tier, read
off the three `actions = [...]` literals of `trigger_pest_response`. -/
def actionsFor : RiskTier → List Action
  | .high => [sprayAction 10, trapAction 60]
  | .medium => [sprayAction 5, trapAction 30]
  | .low => [trapAction 15]

/-- `PestManagementSystem.trigger_pest_response` (actuator.py lines
446-483): selects the action list from the confidence thresholds and
enqueues each action in order.  Returns the list of actions appended to
the queue; `pest_type` and `location` are only interpolated into a log
message. -/
def trigger_pest_response (th : PestThresholds) (pest_type : String)
    (confidence : ℚ) (location : ℚ × ℚ) : List Action :=
  let _ := pest_type
  let _ := location
  if confidence ≥ th.high_risk then
    [sprayAction 10, trapAction 60]
  else if confidence ≥ th.medium_risk then
    [sprayAction 5, trapAction 30]
  else
    [trapAction 15]

/-! ### The dispatcher -/

/-- The mutable state `_execute_action` can touch through
`_spray_pesticide` / `_activate_trap` / `_adjust_camera` /
`_emergency_shutdown`. -/
structure SystemState where
  relay : RelayState
  motor : MotorState
  is_running : Bool
deriving DecidableEq, Repr

/-- What one `_execute_action` call produced: a normal dispatch, the
`Unknown action type` warning for an unrecognised kind, or an exception
caught by its `except Exception` handler. -/
inductive ExecOutcome where
  | dispatched
  | unknownWarned (t : Option String)
  | errorCaught (e : PyError)
deriving DecidableEq, Repr

/-- `PestManagementSystem._execute_action` (actuator.py lines 388-405):
dispatch on `action.get('type')` over the four known kinds; anything else
is logged (`Unknown action type`) and dropped.  The handlers:
`_spray_pesticide` activates relay 0, `_activate_trap` activates relay 1,
`_adjust_camera` moves the servo, `_emergency_shutdown` deactivates every
configured relay and stops the system. -/
def execute_action (st : SystemState) (a : Action) : SystemState × ExecOutcome :=
  if a.type = some "spray_pesticide" then
    ({ st with relay := (activate_relay st.relay 0 (some (a.duration.getD 5))).1 },
     .dispatched)
  else if a.type = some "activate_trap" then
    ({ st with relay := (activate_relay st.relay 1 (some (a.duration.getD 30))).1 },
     .dispatched)
  else if a.type = some "adjust_camera" then
    ({ st with motor := (move_servo st.motor (a.angle.getD 90)).1 }, .dispatched)
  else if a.type = some "emergency_shutdown" then
    ({ st with
        relay := st.relay.relay_pins.foldl (fun rc pin => (deactivate_relay rc pin).1) st.relay
        is_running := false },
     .dispatched)
  else
    (st, .unknownWarned a.type)

/-- `PestManagementSystem._process_actions` (actuator.py lines 377-386),
specialised to a queue snapshot: the worker pops each action in FIFO
order and executes it; its `except Exception` clause means that whatever
one execution does, the loop proceeds to the next action.  Returns the
final state and the per-action outcomes in order. -/
def process_actions (st : SystemState) (queued : List Action) :
    SystemState × List ExecOutcome :=
  match queued with
  | [] => (st, [])
  | a :: rest =>
    let r := execute_action st a
    let w := process_actions r.1 rest
    (w.1, r.2 :: w.2)

/-- The worker-loop schema of `_process_actions`, abstracted over the
body: even when executing an action raises an arbitrary exception, the
`except Exception` handler logs it and the loop continues with the
remaining queued actions.  `exec` returns `.ok` with the new state, or
`.error e` when the body raised `e` (in which case the caught exception
is recorded and the loop carries on from the supplied fallback state). -/
def worker_loop (exec : SystemState → Action → Except PyError SystemState)
    (st : SystemState) (queued : List Action) :
    SystemState × List (Option PyError) :=
  match queued with
  | [] => (st, [])
  | a :: rest =>
    match exec st a with
    | .ok st' =>
      let w := worker_loop exec st' rest
      (w.1, none :: w.2)
    | .error e =>
      let w := worker_loop exec st rest
      (w.1, some e :: w.2)

/-! ### Configuration loading

`PestManagementSystem._load_config` (actuator.py lines 289-315) builds a
`default_config` dict and then runs
`if config_file and os.path.exists(config_file): ...` — but the module's
list of imports (actuator.py lines 6-12) is `time, logging, json, datetime,
typing, threading, queue`: `os` is never imported, so evaluating
`os.path.exists` raises `NameError`.  Python's `and` short-circuits, so
the name is only looked up when `config_file` is truthy (not `None` and
not the empty string). -/

def module_imports : List String :=
  ["time", "logging", "json", "datetime", "typing", "threading", "queue"]

/-- The configuration keys the claims consult. -/
structure Config where
  relay_pins : List Int
  pest_thresholds : PestThresholds
deriving DecidableEq, Repr

def default_config : Config :=
  { relay_pins := [18, 19, 20, 21], pest_thresholds := defaultThresholds }

/-- Truthiness of the `config_file : str = None` argument. -/
def configFileTruthy : Option String → Bool
  | none => false
  | some s => s ≠ ""

/-- `_load_config`: returns the default config unless `config_file` is
truthy, in which case evaluating the guard's `os.path.exists` looks up
the name `os`; since `os` is absent from `module_imports`, this raises a
`NameError` that nothing in `_load_config` or `__init__` catches.  (The
branch under a successful lookup would merge the file's JSON into the
defaults; it is unreachable because `os` is never imported, and is
modelled as returning the defaults.) -/
def load_config (config_file : Option String) : Except PyError Config :=
  if configFileTruthy config_file then
    if "os" ∈ module_imports then
      .ok default_config
    else
      .error (.nameError "os")
  else
    .ok default_config

/-- `PestManagementSystem.__init__` up to the point the configuration is
established: `self.config = self._load_config(config_file)` runs before
any controller is built, so a `NameError` from `_load_config` aborts
construction. -/
def PestManagementSystem.construct (config_file : Option String) :
    Except PyError Config :=
  load_config config_file

/-- The controller state of a freshly constructed and started
`PestManagementSystem()` with the default configuration
(`_initialize_controllers` then `start_system`). -/
def initialSystem : SystemState :=
  { relay := RelayController.init default_config.relay_pins
    motor := MotorController.init
    is_running := true }

/-! ## Helper lemmas -/

theorem dictLookup_dictSet_self (d : List (Int × Bool)) (k : Int) (v : Bool) :
    dictLookup (dictSet d k v) k = some v := by
  induction d with
  | nil => simp [dictSet, dictLookup]
  | cons p t ih =>
    obtain ⟨a, b⟩ := p
    by_cases hka : k = a
    · simp [dictSet, dictLookup, hka]
    · simp [dictSet, dictLookup, hka, ih]

theorem dictLookup_dictSet_other (d : List (Int × Bool)) (k k' : Int) (v : Bool)
    (hne : k' ≠ k) : dictLookup (dictSet d k v) k' = dictLookup d k' := by
  induction d with
  | nil => simp [dictSet, dictLookup, hne]
  | cons p t ih =>
    obtain ⟨a, b⟩ := p
    by_cases hka : k = a
    · subst hka
      simp [dictSet, dictLookup, hne]
    · by_cases hk'a : k' = a
      · simp [dictSet, dictLookup, hka, hk'a]
      · simp [dictSet, dictLookup, hka, hk'a, ih]

theorem dictSet_self_eq (d : List (Int × Bool)) (k : Int) (v : Bool)
    (h : dictLookup d k = some v) : dictSet d k v = d := by
  induction d with
  | nil => simp [dictLookup] at h
  | cons p t ih =>
    obtain ⟨a, b⟩ := p
    by_cases hka : k = a
    · subst hka
      simp [dictLookup] at h
      simp [dictSet, h]
    · simp [dictLookup, hka] at h
      simp [dictSet, hka, ih h]

/-- Keys present in `relay_states` are always configured pins. -/
def RelayKeysInvariant (rc : RelayState) : Prop :=
  ∀ p : Int, (dictLookup rc.relay_states p).isSome → p ∈ rc.relay_pins

theorem relay_init_keys_invariant (pins : List Int) :
    RelayKeysInvariant (RelayController.init pins) := by
  intro p hp
  simp only [RelayController.init] at hp ⊢
  induction pins with
  | nil => simp [dictLookup] at hp
  | cons q t ih =>
    simp only [List.map_cons, dictLookup] at hp
    by_cases hpq : p = q
    · simp [hpq]
    · simp only [hpq, if_false] at hp
      exact List.mem_cons_of_mem q (ih hp)

theorem relay_activate_keys_invariant (rc : RelayState) (pin : Int) (d : Option ℚ)
    (h : RelayKeysInvariant rc) :
    RelayKeysInvariant (activate_relay rc pin d).1 := by
  intro p hp
  by_cases hmem : pin ∈ rc.relay_pins
  · simp only [activate_relay, if_pos hmem] at hp ⊢
    by_cases hppin : p = pin
    · simpa [hppin] using hmem
    · exact h p (by rwa [dictLookup_dictSet_other _ _ _ _ hppin] at hp)
  · simp only [activate_relay, if_neg hmem] at hp ⊢
    exact h p hp

theorem relay_deactivate_keys_invariant (rc : RelayState) (pin : Int)
    (h : RelayKeysInvariant rc) :
    RelayKeysInvariant (deactivate_relay rc pin).1 := by
  intro p hp
  by_cases hmem : pin ∈ rc.relay_pins
  · simp only [deactivate_relay, if_pos hmem] at hp ⊢
    by_cases hppin : p = pin
    · simpa [hppin] using hmem
    · exact h p (by rwa [dictLookup_dictSet_other _ _ _ _ hppin] at hp)
  · simp only [deactivate_relay, if_neg hmem] at hp ⊢
    exact h p hp

theorem stepperSteps_final_position (n : Nat) :
    ∀ (m : MotorState) (direction : Int),
      (stepperSteps m n direction).2.current_position
        = m.current_position + (n : ℚ) * (direction : ℚ) := by
  induction n with
  | zero => intro m direction; simp [stepperSteps]
  | succ k ih =>
    intro m direction
    simp only [stepperSteps]
    rw [ih]
    push_cast
    ring

theorem stepperSteps_final_is_moving (n : Nat) :
    ∀ (m : MotorState) (direction : Int),
      (stepperSteps m n direction).2.is_moving = m.is_moving := by
  induction n with
  | zero => intro m direction; simp [stepperSteps]
  | succ k ih =>
    intro m direction
    simp only [stepperSteps]
    rw [ih]

theorem stepperSteps_trace_is_moving (n : Nat) :
    ∀ (m : MotorState) (direction : Int),
      ∀ s ∈ (stepperSteps m n direction).1, s.is_moving = m.is_moving := by
  induction n with
  | zero => intro m direction s hs; simp [stepperSteps] at hs
  | succ k ih =>
    intro m direction s hs
    simp only [stepperSteps, List.mem_cons] at hs
    rcases hs with rfl | hs
    · rfl
    · exact ih { m with current_position := m.current_position + (direction : ℚ) }
        direction s hs

/-! ## Claim theorems -/

/-- C1: for every confidence in [0,1] and every pest type and location,
`trigger_pest_response` enqueues exactly the canonical bundle in order:
`[spray_pesticide(10), activate_trap(60)]` when `confidence ≥ high_risk`;
`[spray_pesticide(5), activate_trap(30)]` when
`medium_risk ≤ confidence < high_risk`; `[activate_trap(15)]` otherwise;
and the enqueued list does not depend on the pest type or location. -/
theorem C1_trigger_response_canonical_bundle (th : PestThresholds)
    (pt : String) (c : ℚ) (loc : ℚ × ℚ) (h0 : 0 ≤ c) (h1 : c ≤ 1) :
    (th.high_risk ≤ c →
      trigger_pest_response th pt c loc = [sprayAction 10, trapAction 60]) ∧
    (th.medium_risk ≤ c ∧ c < th.high_risk →
      trigger_pest_response th pt c loc = [sprayAction 5, trapAction 30]) ∧
    (c < th.high_risk ∧ c < th.medium_risk →
      trigger_pest_response th pt c loc = [trapAction 15]) ∧
    (∀ (pt' : String) (loc' : ℚ × ℚ),
      trigger_pest_response th pt c loc = trigger_pest_response th pt' c loc') := by
  refine ⟨?_, ?_, ?_, ?_⟩
  · intro h
    simp [trigger_pest_response, h]
  · rintro ⟨hm, hh⟩
    simp [trigger_pest_response, hm, not_le.mpr hh]
  · rintro ⟨hh, hm⟩
    simp [trigger_pest_response, not_le.mpr hh, not_le.mpr hm]
  · intro pt' loc'
    rfl

/-- Witness for C1 at the spec's scenario: default thresholds and
confidence 0.85 give the high-risk bundle. -/
theorem C1_witness :
    ((0 : ℚ) ≤ 85/100 ∧ (85/100 : ℚ) ≤ 1 ∧ defaultThresholds.high_risk ≤ 85/100) ∧
    trigger_pest_response defaultThresholds "aphid" (85/100) (10, 10) =
      [sprayAction 10, trapAction 60] := by
  refine ⟨⟨by norm_num, by norm_num, by norm_num [defaultThresholds]⟩, ?_⟩
  exact (C1_trigger_response_canonical_bundle defaultThresholds "aphid" (85/100)
    (10, 10) (by norm_num) (by norm_num)).1 (by norm_num [defaultThresholds])

/-- C2: for every angle in [0,180], `move_servo` succeeds and
`get_position` afterwards equals the angle; for every angle outside
[0,180] it fails with the out-of-range ValueError (caught and logged by
its own handler) and the position is unchanged. -/
theorem C2_move_servo_range (m : MotorState) (angle : ℚ) :
    (0 ≤ angle ∧ angle ≤ 180 →
      move_servo m angle = ({ m with current_position := angle }, PyResult.ok) ∧
      get_position (move_servo m angle).1 = angle) ∧
    (¬ (0 ≤ angle ∧ angle ≤ 180) →
      (move_servo m angle).2 =
        PyResult.caught (PyError.valueError "Angle must be between 0 and 180 degrees") ∧
      (move_servo m angle).1 = m ∧
      get_position (move_servo m angle).1 = get_position m) := by
  constructor
  · intro h
    simp [move_servo, get_position, h]
  · intro h
    simp [move_servo, get_position, h]

/-- Witness for C2: moving the servo to 90 degrees from the initial
motor state succeeds and the position reads back 90. -/
theorem C2_witness :
    ((0 : ℚ) ≤ 90 ∧ (90 : ℚ) ≤ 180) ∧
    move_servo MotorController.init 90 =
      ({ MotorController.init with current_position := 90 }, PyResult.ok) ∧
    get_position (move_servo MotorController.init 90).1 = 90 := by
  refine ⟨⟨by norm_num, by norm_num⟩, ?_⟩
  exact (C2_move_servo_range MotorController.init 90).1 (by norm_num)

/-- C3 counterexample: with the configured pin set [18, 19, 20, 21], pin
0 is invalid, yet neither `activate_relay` nor `deactivate_relay`
delivers an exception to the caller — each body is wrapped in its own
`except Exception` handler, which logs the ValueError and returns
normally, so nothing is reported to the caller. -/
theorem C3_counterexample :
    (activate_relay (RelayController.init [18, 19, 20, 21]) 0 none).2.isRaised = false ∧
    (deactivate_relay (RelayController.init [18, 19, 20, 21]) 0).2.isRaised = false := by
  decide

/-- C3 (amended): for every channel id not in the configured set,
`activate_relay` and `deactivate_relay` each fail internally with the
InvalidChannel ValueError, which their own handler catches and logs —
the caller sees a normal return — and no channel state changes. -/
theorem C3_relay_invalid_pin_caught (rc : RelayState) (pin : Int)
    (d : Option ℚ) (h : pin ∉ rc.relay_pins) :
    activate_relay rc pin d =
      (rc, PyResult.caught
        (PyError.valueError ("Invalid relay pin: " ++ toString pin))) ∧
    deactivate_relay rc pin =
      (rc, PyResult.caught
        (PyError.valueError ("Invalid relay pin: " ++ toString pin))) := by
  constructor
  · simp [activate_relay, h]
  · simp [deactivate_relay, h]

/-- Witness for the amended C3 at pin 0 against the default pin set. -/
theorem C3_amended_witness :
    ((0 : Int) ∉ (RelayController.init [18, 19, 20, 21]).relay_pins) ∧
    activate_relay (RelayController.init [18, 19, 20, 21]) 0 none =
      (RelayController.init [18, 19, 20, 21],
       PyResult.caught
         (PyError.valueError ("Invalid relay pin: " ++ toString (0 : Int)))) := by
  refine ⟨by decide, ?_⟩
  exact (C3_relay_invalid_pin_caught (RelayController.init [18, 19, 20, 21]) 0 none
    (by decide)).1

/-- C4: for a configured channel whose state dict holds a key for it,
activate then state reads true; deactivate then state reads false;
deactivate raises no error; and deactivating an already-inactive channel
leaves the state dict literally unchanged (idempotent no-op). -/
theorem C4_relay_roundtrip (rc : RelayState) (pin : Int) (d : Option ℚ)
    (hpin : pin ∈ rc.relay_pins)
    (hkey : (dictLookup rc.relay_states pin).isSome) :
    get_relay_state (activate_relay rc pin d).1 pin = true ∧
    get_relay_state (deactivate_relay rc pin).1 pin = false ∧
    (deactivate_relay rc pin).2 = PyResult.ok ∧
    (get_relay_state rc pin = false → (deactivate_relay rc pin).1 = rc) := by
  refine ⟨?_, ?_, ?_, ?_⟩
  · simp [activate_relay, hpin, get_relay_state, dictGet, dictLookup_dictSet_self]
  · simp [deactivate_relay, hpin, get_relay_state, dictGet, dictLookup_dictSet_self]
  · simp [deactivate_relay, hpin]
  · intro hfalse
    rcases hlk : dictLookup rc.relay_states pin with _ | b
    · rw [hlk] at hkey
      simp at hkey
    · have hb : b = false := by
        simpa [get_relay_state, dictGet, hlk] using hfalse
      have hsome : dictLookup rc.relay_states pin = some false := hb ▸ hlk
      have hset := dictSet_self_eq rc.relay_states pin false hsome
      simp [deactivate_relay, hpin, hset]

/-- Witness for C4 at pin 18 of the freshly initialised relay bank. -/
theorem C4_witness :
    ((18 : Int) ∈ (RelayController.init [18, 19, 20, 21]).relay_pins ∧
     (dictLookup (RelayController.init [18, 19, 20, 21]).relay_states 18).isSome = true) ∧
    get_relay_state
        (activate_relay (RelayController.init [18, 19, 20, 21]) 18 none).1 18 = true ∧
    get_relay_state
        (deactivate_relay (RelayController.init [18, 19, 20, 21]) 18).1 18 = false ∧
    (deactivate_relay (RelayController.init [18, 19, 20, 21]) 18).2 = PyResult.ok ∧
    (get_relay_state (RelayController.init [18, 19, 20, 21]) 18 = false →
      (deactivate_relay (RelayController.init [18, 19, 20, 21]) 18).1 =
        RelayController.init [18, 19, 20, 21]) := by
  exact ⟨⟨by decide, by decide⟩,
    C4_relay_roundtrip (RelayController.init [18, 19, 20, 21]) 18 none
      (by decide) (by decide)⟩

/-- C5: the dispatcher worker is robust — for any execution body, even
one that raises an exception on some action, the worker's handler
catches it and every subsequent queued action is still processed (one
outcome per queued action); concretely, `process_actions` handles the
whole queue; and an action whose kind is not one of the four known ones
is logged as unknown and dropped with relay and motor state unchanged. -/
theorem C5_dispatcher_robust :
    (∀ (exec : SystemState → Action → Except PyError SystemState)
       (st : SystemState) (q : List Action),
       (worker_loop exec st q).2.length = q.length) ∧
    (∀ (st : SystemState) (q : List Action),
       (process_actions st q).2.length = q.length) ∧
    (∀ (st : SystemState) (a : Action),
       a.type ≠ some "spray_pesticide" → a.type ≠ some "activate_trap" →
       a.type ≠ some "adjust_camera" → a.type ≠ some "emergency_shutdown" →
       execute_action st a = (st, ExecOutcome.unknownWarned a.type)) := by
  refine ⟨?_, ?_, ?_⟩
  · intro exec st q
    induction q generalizing st with
    | nil => rfl
    | cons a rest ih =>
      cases hx : exec st a with
      | ok st' => simp [worker_loop, hx, ih]
      | error e => simp [worker_loop, hx, ih]
  · intro st q
    induction q generalizing st with
    | nil => rfl
    | cons a rest ih => simp [process_actions, ih]
  · intro st a h1 h2 h3 h4
    simp [execute_action, h1, h2, h3, h4]

/-- Witness for C5: a queue holding an unknown action followed by two
known ones yields three outcomes, and the unknown action leaves the
initial system state untouched. -/
theorem C5_witness :
    (process_actions initialSystem
      [⟨some "bogus_action", none, none⟩, sprayAction 10, trapAction 60]).2.length = 3 ∧
    execute_action initialSystem ⟨some "bogus_action", none, none⟩ =
      (initialSystem, ExecOutcome.unknownWarned (some "bogus_action")) := by
  constructor
  · exact C5_dispatcher_robust.2.1 initialSystem
      [⟨some "bogus_action", none, none⟩, sprayAction 10, trapAction 60]
  · exact C5_dispatcher_robust.2.2 initialSystem ⟨some "bogus_action", none, none⟩
      (by decide) (by decide) (by decide) (by decide)

/-- C6: `classify` is monotone — with thresholds ordered
`low_risk ≤ medium_risk ≤ high_risk`, a smaller confidence never gets a
strictly higher risk tier (in the order low < medium < high). -/
theorem C6_classify_monotone (th : PestThresholds) (c1 c2 : ℚ)
    (hml : th.low_risk ≤ th.medium_risk)
    (hhm : th.medium_risk ≤ th.high_risk) (h12 : c1 ≤ c2) :
    (classify th c1).val ≤ (classify th c2).val := by
  unfold classify
  split_ifs <;> simp only [RiskTier.val] <;> first | omega | (exfalso; linarith)

/-- Witness for C6 at the default thresholds with confidences 0.4, 0.9. -/
theorem C6_witness :
    (defaultThresholds.low_risk ≤ defaultThresholds.medium_risk ∧
     defaultThresholds.medium_risk ≤ defaultThresholds.high_risk ∧
     (4/10 : ℚ) ≤ 9/10) ∧
    (classify defaultThresholds (4/10)).val ≤ (classify defaultThresholds (9/10)).val := by
  refine ⟨⟨by norm_num [defaultThresholds], by norm_num [defaultThresholds],
    by norm_num⟩, ?_⟩
  exact C6_classify_monotone defaultThresholds (4/10) (9/10)
    (by norm_num [defaultThresholds]) (by norm_num [defaultThresholds]) (by norm_num)

/-- C7: for every nonnegative step count, any direction and any positive
step delay, `move_stepper` ends with the position advanced by
steps * direction and `is_moving` false, and `is_moving` is true in
every state of the in-progress trace. -/
theorem C7_move_stepper (m : MotorState) (steps direction : Int) (speed : ℚ)
    (hsteps : 0 ≤ steps) (hspeed : 0 < speed) :
    (move_stepper m steps direction speed).2.current_position
        = m.current_position + (steps : ℚ) * (direction : ℚ) ∧
    (move_stepper m steps direction speed).2.is_moving = false ∧
    ∀ s ∈ (move_stepper m steps direction speed).1, s.is_moving = true := by
  have hcast : ((steps.toNat : ℚ)) = (steps : ℚ) := by
    exact_mod_cast Int.toNat_of_nonneg hsteps
  refine ⟨?_, ?_, ?_⟩
  · simp [move_stepper, stepperSteps_final_position, hcast]
  · simp [move_stepper]
  · intro s hs
    simp only [move_stepper, List.mem_cons] at hs
    rcases hs with rfl | hs
    · rfl
    · have h := stepperSteps_trace_is_moving steps.toNat
        { m with is_moving := true } direction s hs
      simpa using h

/-- Witness for C7: three forward steps from the initial motor state. -/
theorem C7_witness :
    ((0 : Int) ≤ 3 ∧ (0 : ℚ) < 1/100) ∧
    (move_stepper MotorController.init 3 1 (1/100)).2.current_position
        = MotorController.init.current_position + ((3 : Int) : ℚ) * ((1 : Int) : ℚ) ∧
    (move_stepper MotorController.init 3 1 (1/100)).2.is_moving = false ∧
    ∀ s ∈ (move_stepper MotorController.init 3 1 (1/100)).1, s.is_moving = true := by
  refine ⟨⟨by norm_num, by norm_num⟩, ?_⟩
  exact C7_move_stepper MotorController.init 3 1 (1/100) (by norm_num) (by norm_num)

/-- C8 counterexample: `config_file = ""` is not None, yet construction
succeeds — the empty string is falsy, so `config_file and
os.path.exists(config_file)` short-circuits before the name `os` is ever
looked up, and the defaults are returned without a NameError. -/
theorem C8_counterexample :
    PestManagementSystem.construct (some "") = Except.ok default_config ∧
    ¬ PestManagementSystem.construct (some "")
        = Except.error (PyError.nameError "os") := by
  constructor
  · rfl
  · intro h
    rw [show PestManagementSystem.construct (some "") = Except.ok default_config
      from rfl] at h
    exact Except.noConfusion h

/-- C8 (amended): constructing with any truthy (non-empty) config_file
string raises NameError (the module never imports os, and the name is
looked up in the guard before the file could be opened); construction
succeeds with the built-in default configuration exactly when
config_file is None or the empty string. -/
theorem C8_construct_name_error (s : String) (h : s ≠ "") :
    PestManagementSystem.construct (some s)
        = Except.error (PyError.nameError "os") ∧
    PestManagementSystem.construct none = Except.ok default_config ∧
    PestManagementSystem.construct (some "") = Except.ok default_config := by
  refine ⟨?_, rfl, rfl⟩
  simp [PestManagementSystem.construct, load_config, configFileTruthy,
    module_imports, h]

/-- Witness for the amended C8 with a concrete file name. -/
theorem C8_amended_witness :
    ("config.json" ≠ "") ∧
    PestManagementSystem.construct (some "config.json")
        = Except.error (PyError.nameError "os") := by
  refine ⟨by decide, ?_⟩
  exact (C8_construct_name_error "config.json" (by decide)).1

/-- C9: the enqueued action list is independent of the configured
low_risk threshold — two configurations agreeing on high_risk and
medium_risk produce identical action lists for every confidence. -/
theorem C9_trigger_ignores_low_risk (th1 th2 : PestThresholds) (pt : String)
    (c : ℚ) (loc : ℚ × ℚ)
    (hh : th1.high_risk = th2.high_risk)
    (hm : th1.medium_risk = th2.medium_risk) :
    trigger_pest_response th1 pt c loc = trigger_pest_response th2 pt c loc := by
  simp only [trigger_pest_response, hh, hm]

/-- Witness for C9: the default thresholds and a variant with low_risk
set to 0 enqueue the same actions at confidence 0.2. -/
theorem C9_witness :
    (defaultThresholds.high_risk = (PestThresholds.mk (8/10) (5/10) 0).high_risk ∧
     defaultThresholds.medium_risk = (PestThresholds.mk (8/10) (5/10) 0).medium_risk) ∧
    trigger_pest_response defaultThresholds "aphid" (2/10) (0, 0) =
      trigger_pest_response (PestThresholds.mk (8/10) (5/10) 0) "aphid" (2/10) (0, 0) := by
  exact ⟨⟨rfl, rfl⟩,
    C9_trigger_ignores_low_risk defaultThresholds (PestThresholds.mk (8/10) (5/10) 0)
      "aphid" (2/10) (0, 0) rfl rfl⟩

/-- C10: reading the state of an unconfigured channel id does not fail:
`get_relay_state` returns false, the dict-get default, for every id
outside the key set — and every reachable relay state keeps its keys
within the configured pins (established at init, preserved by activate
and deactivate). -/
theorem C10_unknown_pin_state_default (rc : RelayState) (pin : Int)
    (hinv : RelayKeysInvariant rc) (hpin : pin ∉ rc.relay_pins) :
    get_relay_state rc pin = false ∧
    (∀ pins, RelayKeysInvariant (RelayController.init pins)) ∧
    (∀ (p : Int) (d : Option ℚ),
      RelayKeysInvariant (activate_relay rc p d).1 ∧
      RelayKeysInvariant (deactivate_relay rc p).1) := by
  refine ⟨?_, relay_init_keys_invariant, fun p d =>
    ⟨relay_activate_keys_invariant rc p d hinv,
     relay_deactivate_keys_invariant rc p hinv⟩⟩
  rcases hlk : dictLookup rc.relay_states pin with _ | b
  · simp [get_relay_state, dictGet, hlk]
  · exact absurd (hinv pin (by simp [hlk])) hpin

/-- Witness for C10 at pin 99 against the freshly initialised bank. -/
theorem C10_witness :
    ((99 : Int) ∉ (RelayController.init [18, 19, 20, 21]).relay_pins) ∧
    get_relay_state (RelayController.init [18, 19, 20, 21]) 99 = false := by
  refine ⟨by decide, ?_⟩
  exact (C10_unknown_pin_state_default (RelayController.init [18, 19, 20, 21]) 99
    (relay_init_keys_invariant [18, 19, 20, 21]) (by decide)).1

end PestDetect
